import Mathlib

/-!
Verification of the AudioSocket protocol modules (CyCoreSystems/audiosocket,
Asterisk variants).  This file gives a shallow embedding of the frame codec,
the session handshake, the transport connector and the relay loop from
`res_audiosocket.c`, `app_audiosocket.c` and `apps/app_audiosocket.c`, and
proves/refutes the frozen specification claims about them.

Modelling conventions:
- a socket's inbound byte stream is a `List Nat` of bytes (each < 256 in any
  well-formed stream); the end of the list is EOF.  `read(fd, buf, n)` on such
  a stream returns `min n available` bytes, so the payload read loop of the C
  code succeeds exactly when at least `len` bytes remain, and on a truncated
  stream it consumes everything before failing.
- the outbound side of a syscall-performing function is recorded as a
  `WriteEffect`: the list of buffers passed to successive `write` calls plus
  the function's return value.  The number of bytes the kernel accepts for
  the (single) write call is an explicit `Int` argument (`accepted`).
- channel-side collaborators (`ast_read`, `ast_write`, `ast_waitfor_nandfds`)
  are modelled as an environment schedule; `ast_write` to the channel is
  modelled as always succeeding, which is the environment assumed by the
  claims under verification.
-/

namespace AudioSocket

/-- Trace of the `write(2)` calls a function performed, with its return. -/
structure WriteEffect where
  calls : List (List Nat)
  ret : Int
deriving DecidableEq

/-- The 19-byte identifier buffer built by `audiosocket_init`
(res_audiosocket.c lines 173-178 and app_audiosocket.c lines 204-209):
`buf[0]=0x01; buf[1]=0x00; buf[2]=0x10; memcpy(buf+3, uu, 16)`. -/
def audiosocket_init_buf (uu : List Nat) : List Nat :=
  0x01 :: 0x00 :: 0x10 :: uu

/-- Embedding of `audiosocket_init` (res_audiosocket.c lines 150-189):
one `write(svc, buf, 3+16)` call; return is `-1` exactly when that single
write call does not return `3+16 = 19`.  `accepted` is the write's return. -/
def audiosocket_init (uu : List Nat) (accepted : Int) : WriteEffect :=
  { calls := [audiosocket_init_buf uu]
  , ret := if accepted = 19 then 0 else -1 }

/-- The buffer built by `audiosocket_send_frame`
(res_audiosocket.c lines 197-203): kind byte `0x10`, then
`f->datalen >> 8` truncated to a `uint8_t`, then `f->datalen & 0xff`,
then the `datalen` payload bytes. -/
def audiosocket_send_buf (payload : List Nat) : List Nat :=
  0x10 :: (payload.length >>> 8) % 256 :: payload.length % 256 :: payload

/-- Embedding of `audiosocket_send_frame` (res_audiosocket.c lines 191-212):
one `write(svc, buf, 3+f->datalen)` call, no size check of any kind; return
is `-1` exactly when the write call does not return `3 + datalen`. -/
def audiosocket_send_frame (payload : List Nat) (accepted : Int) : WriteEffect :=
  { calls := [audiosocket_send_buf payload]
  , ret := if accepted = 3 + (payload.length : Int) then 0 else -1 }

/-- Result of `audiosocket_receive_frame` (res_audiosocket.c lines 214-296):
`nullFrame` is `&ast_null_frame` (EOF at the kind byte, zero declared
length, or a non-audio message), `errFrame` is the `NULL` return (truncated
header or truncated payload), `voice p` is the slin voice frame whose
payload is `p`. -/
inductive RecvResult where
  | nullFrame : RecvResult
  | errFrame : RecvResult
  | voice : List Nat → RecvResult
deriving DecidableEq

/-- Embedding of `audiosocket_receive_frame` (res_audiosocket.c lines
214-296) over a byte stream; also returns the unread remainder of the
stream.  Faithful control flow: read 1 kind byte (EOF there is the null
frame); a short read of either length byte is `NULL`; `len = len_high*256 +
len_low`; `len < 1` returns the null frame before any payload read; the
payload loop fails (`NULL`) when fewer than `len` bytes remain, consuming
them all; a non-audio kind is fully read and then returned as the null
frame; otherwise a voice frame carrying the payload. -/
def audiosocket_receive_frame : List Nat → RecvResult × List Nat
  | [] => (.nullFrame, [])
  | [_kind] => (.errFrame, [])
  | [_kind, _len_high] => (.errFrame, [])
  | kind :: len_high :: len_low :: s =>
    let len := len_high * 256 + len_low
    if len < 1 then (.nullFrame, s)
    else if s.length < len then (.errFrame, [])
    else if kind ≠ 0x10 then (.nullFrame, s.drop len)
    else (.voice (s.take len), s.drop len)

/-- Embedding of `audiosocket_forward_frame` (app_audiosocket.c lines
265-349) over a byte stream.  Result: the int return code, the payload
delivered to the channel via `ast_write` (if any), and the unread remainder
of the stream.  Return codes as in the source: `0` for EOF at the kind byte
/ zero declared length / non-audio message (and for a delivered frame, with
`ast_write` modelled as succeeding), `2` for a short read of a length byte,
`-1` for a truncated payload. -/
def audiosocket_forward_frame : List Nat → Int × Option (List Nat) × List Nat
  | [] => (0, none, [])
  | [_kind] => (2, none, [])
  | [_kind, _len_high] => (2, none, [])
  | kind :: len_high :: len_low :: s =>
    let len := len_high * 256 + len_low
    if len < 1 then (0, none, s)
    else if s.length < len then (-1, none, [])
    else if kind ≠ 0x10 then (0, none, s.drop len)
    else (0, some (s.take len), s.drop len)

/-- One resolved connect candidate as seen by the loop in
`audiosocket_connect` (res_audiosocket.c lines 55-85): whether it carries a
port, whether `socket(2)` and `ast_fd_set_flags` succeed, whether
`ast_connect` leaves `errno == EINPROGRESS`, whether `ast_poll` reports the
socket writable within the deadline, whether `getsockopt(SO_ERROR)`
succeeds, and the fetched `SO_ERROR` value (`0` = connect succeeded). -/
structure Candidate where
  hasPort : Bool
  socketOk : Bool
  flagsOk : Bool
  einprogress : Bool
  pollWritable : Bool
  soErrorFetchOk : Bool
  soError : Nat
deriving DecidableEq

/-- Embedding of `handle_audiosocket_connection` (res_audiosocket.c lines
108-148): returns `true` (C return 0) exactly when the poll reports the
socket writable before the timeout, `getsockopt(SO_ERROR)` succeeds, and
the fetched error value is `0`. -/
def handle_audiosocket_connection (c : Candidate) : Bool :=
  c.pollWritable && c.soErrorFetchOk && decide (c.soError = 0)

/-- Outcome of `audiosocket_connect`: the socket of the candidate at a given
index in resolver order, or failure (C return `-1`). -/
inductive ConnectResult where
  | connected : Nat → ConnectResult
  | failed : ConnectResult
deriving DecidableEq

/-- Embedding of the candidate loop of `audiosocket_connect`
(res_audiosocket.c lines 55-91), carrying the index `idx` of the head
candidate.  `continue` branches recurse on the tail; a `break` with
`i < num_addrs` returns the current candidate's socket; falling off the end
(`i == num_addrs`) is the failure return.  Note the faithful `else` branch:
when `ast_connect` does not leave `EINPROGRESS` the source logs and
`break`s, returning the current socket without any error check. -/
def audiosocket_connect_from : List Candidate → Nat → ConnectResult
  | [], _ => .failed
  | c :: rest, idx =>
    if !c.hasPort then audiosocket_connect_from rest (idx + 1)
    else if !c.socketOk then audiosocket_connect_from rest (idx + 1)
    else if !c.flagsOk then audiosocket_connect_from rest (idx + 1)
    else if c.einprogress then
      if handle_audiosocket_connection c then .connected idx
      else audiosocket_connect_from rest (idx + 1)
    else .connected idx

/-- Embedding of `audiosocket_connect` (res_audiosocket.c lines 40-95) from
the resolved candidate list: an empty resolution fails, otherwise run the
candidate loop from index 0. -/
def audiosocket_connect (cands : List Candidate) : ConnectResult :=
  audiosocket_connect_from cands 0

/-- What `ast_read` produced when the channel side was ready in an
iteration of `audiosocket_run` (apps/app_audiosocket.c lines 228-267). -/
inductive ChanEvent where
  | readFail : ChanEvent
  | voiceFrame : List Nat → ChanEvent
  | otherFrame : ChanEvent
deriving DecidableEq

/-- Environment of one iteration of `audiosocket_run`: whether
`ast_waitfor_nandfds` returned the channel (and what `ast_read` then gave),
and whether it flagged the socket fd ready. -/
structure LoopInput where
  chanEvent : Option ChanEvent
  sockReady : Bool

/-- Outcome of running `audiosocket_run`'s loop for a bounded number of
iterations: `failed` is the C `return -1`; `running s` means the loop had
not exited when the fuel ran out, with `s` the remaining socket stream. -/
inductive RunOutcome where
  | failed : RunOutcome
  | running : List Nat → RunOutcome
deriving DecidableEq

/-- Embedding of the `while (1)` loop of `audiosocket_run`
(apps/app_audiosocket.c lines 228-267), fuel-indexed, also accumulating the
voice payloads delivered to the channel.  Per iteration: if the channel was
ready and `ast_read` returned NULL, `return -1`; a voice frame from the
channel is sent to the socket (the socket write is modelled as accepted, so
it does not exit); then if the socket fd was ready,
`audiosocket_receive_frame` is called — a NULL frame result is `return -1`,
any other frame is handed to `ast_write` (modelled as succeeding; the null
frame is a no-op for the channel, a voice frame is recorded as delivered)
and the loop continues. -/
def audiosocket_run_steps :
    Nat → (Nat → LoopInput) → List Nat → RunOutcome × List (List Nat)
  | 0, _, s => (.running s, [])
  | fuel + 1, inp, s =>
    match (inp 0).chanEvent with
    | some .readFail => (.failed, [])
    | _ =>
      if (inp 0).sockReady then
        match audiosocket_receive_frame s with
        | (.errFrame, _) => (.failed, [])
        | (.nullFrame, rest) =>
          audiosocket_run_steps fuel (fun n => inp (n + 1)) rest
        | (.voice p, rest) =>
          let r := audiosocket_run_steps fuel (fun n => inp (n + 1)) rest
          (r.1, p :: r.2)
      else audiosocket_run_steps fuel (fun n => inp (n + 1)) s

/-! Helper lemmas shared by the claim theorems. -/

/-- Decoding the exact buffer produced by `audiosocket_send_frame` for a
payload of in-range nonzero length yields the voice frame with that payload
and leaves the stream empty. -/
theorem receive_send_buf_eq (p : List Nat) (h1 : 1 ≤ p.length)
    (h2 : p.length ≤ 65535) :
    audiosocket_receive_frame (audiosocket_send_buf p) = (.voice p, []) := by
  have hlen : (p.length >>> 8) % 256 * 256 + p.length % 256 = p.length := by
    rw [Nat.shiftRight_eq_div_pow]
    omega
  unfold audiosocket_send_buf
  rw [audiosocket_receive_frame]
  simp only [hlen]
  rw [if_neg (by omega), if_neg (by omega), if_neg (by simp)]
  simp

/-- The candidate loop only ever connects a candidate at or after the index
it starts from. -/
theorem connect_from_connected_le (l : List Candidate) (i j : Nat)
    (h : audiosocket_connect_from l i = .connected j) : i ≤ j := by
  induction l generalizing i with
  | nil => simp [audiosocket_connect_from] at h
  | cons c rest ih =>
    rw [audiosocket_connect_from] at h
    split_ifs at h with h1 h2 h3 h4 h5
    · exact Nat.le_of_succ_le (ih (i + 1) h)
    · exact Nat.le_of_succ_le (ih (i + 1) h)
    · exact Nat.le_of_succ_le (ih (i + 1) h)
    · cases h; exact Nat.le_refl _
    · exact Nat.le_of_succ_le (ih (i + 1) h)
    · cases h; exact Nat.le_refl _

/-- If the candidate loop falls off the end of the list (the C failure
return with `i == num_addrs`), every candidate in the list took a
`continue` branch: missing port, failed `socket(2)`, failed flag setting,
or an `EINPROGRESS` connect whose poll/SO_ERROR check failed. -/
theorem connect_from_failed_all_continue (l : List Candidate) (i : Nat)
    (h : audiosocket_connect_from l i = .failed) :
    ∀ d ∈ l, d.hasPort = false ∨ d.socketOk = false ∨ d.flagsOk = false ∨
      (d.einprogress = true ∧ handle_audiosocket_connection d = false) := by
  induction l generalizing i with
  | nil =>
    intro d hd
    cases hd
  | cons c rest ih =>
    intro d hd
    rw [audiosocket_connect_from] at h
    split_ifs at h with h1 h2 h3 h4 h5
    · rcases List.mem_cons.mp hd with rfl | hd
      · exact Or.inl (by simpa using h1)
      · exact ih (i + 1) h d hd
    · rcases List.mem_cons.mp hd with rfl | hd
      · exact Or.inr (Or.inl (by simpa using h2))
      · exact ih (i + 1) h d hd
    · rcases List.mem_cons.mp hd with rfl | hd
      · exact Or.inr (Or.inr (Or.inl (by simpa using h3)))
      · exact ih (i + 1) h d hd
    · rcases List.mem_cons.mp hd with rfl | hd
      · exact Or.inr (Or.inr (Or.inr ⟨h4, by simpa using h5⟩))
      · exact ih (i + 1) h d hd

/-! Claim theorems. -/

/-- C1 (counterexample): for the empty payload the round trip does not
reconstruct an audio message — `audiosocket_send_frame` emits
`[0x10, 0x00, 0x00]` and `audiosocket_receive_frame` returns the null
frame (the zero-length early return at `len < 1`), not a voice frame with
empty payload. -/
theorem roundtrip_zero_counterexample :
    audiosocket_receive_frame (audiosocket_send_buf []) =
      (RecvResult.nullFrame, []) ∧
    (RecvResult.nullFrame, ([] : List Nat)) ≠ (RecvResult.voice [], []) := by
  decide

/-- C1 (amended): decoding the encoded audio message reconstructs the
payload exactly for payloads of length 1, 2 and 65535; for the empty
payload the decoder instead returns the null-frame (empty message) result
and reconstructs no audio message. -/
theorem roundtrip_audio_payload (p : List Nat) :
    (p.length = 1 ∨ p.length = 2 ∨ p.length = 65535 →
      audiosocket_receive_frame (audiosocket_send_buf p) = (.voice p, [])) ∧
    (p.length = 0 →
      audiosocket_receive_frame (audiosocket_send_buf p) =
        (.nullFrame, [])) := by
  constructor
  · intro h
    apply receive_send_buf_eq <;> omega
  · intro h
    have : p = [] := List.eq_nil_of_length_eq_zero h
    subst this
    decide

/-- Witness for C1's theorem at the concrete payload `[0xAA]`. -/
theorem roundtrip_audio_payload_witness :
    audiosocket_receive_frame (audiosocket_send_buf [0xAA]) =
      (.voice [0xAA], []) :=
  (roundtrip_audio_payload [0xAA]).1 (Or.inl rfl)

/-- C2: for every 16-byte UUID, `audiosocket_init` passes to `write` exactly
one buffer, that buffer is `0x01 :: 0x00 :: 0x10 :: uuid`, and it is 19
bytes long. -/
theorem init_writes_single_identifier (uu : List Nat) (a : Int)
    (h : uu.length = 16) :
    (audiosocket_init uu a).calls = [0x01 :: 0x00 :: 0x10 :: uu] ∧
    (audiosocket_init_buf uu).length = 19 ∧
    (audiosocket_init uu a).calls.length = 1 := by
  refine ⟨rfl, ?_, rfl⟩
  simp [audiosocket_init_buf, h]

/-- Witness for C2's theorem at a concrete 16-byte UUID. -/
theorem init_writes_single_identifier_witness :
    (audiosocket_init (List.replicate 16 7) 19).calls =
      [0x01 :: 0x00 :: 0x10 :: List.replicate 16 7] :=
  (init_writes_single_identifier (List.replicate 16 7) 19 (by decide)).1

/-- C3 (code evaluated at the failing input): for the 65536-byte payload,
`audiosocket_send_frame` does not fail — it performs a `write` of the full
`3 + 65536`-byte buffer whose length field has wrapped to `0x00 0x00`, and
returns success when the write is fully accepted.  There is no
`PayloadTooLarge` check anywhere in the function. -/
theorem send_frame_oversize_writes_without_error :
    (audiosocket_send_frame (List.replicate 65536 0) 65539).ret = 0 ∧
    (audiosocket_send_frame (List.replicate 65536 0) 65539).calls =
      [0x10 :: 0x00 :: 0x00 :: List.replicate 65536 0] := by
  have hl : (List.replicate 65536 (0 : Nat)).length = 65536 :=
    List.length_replicate 65536 0
  have hret : ∀ (p : List Nat) (a : Int),
      (audiosocket_send_frame p a).ret =
        if a = 3 + (p.length : Int) then 0 else -1 :=
    fun _ _ => rfl
  have hcalls : ∀ (p : List Nat) (a : Int),
      (audiosocket_send_frame p a).calls = [audiosocket_send_buf p] :=
    fun _ _ => rfl
  constructor
  · rw [hret, hl]
    norm_num
  · rw [hcalls]
    unfold audiosocket_send_buf
    rw [hl, (by decide : (65536 : Nat) >>> 8 % 256 = 0),
      (by norm_num : (65536 : Nat) % 256 = 0)]

/-- C6 (counterexample): the result for a zero-length audio message is not
distinct from the result for a non-audio message — both
`audiosocket_receive_frame` and `audiosocket_forward_frame` return the very
same value for the audio message `[0x10,0x00,0x00]` as for the non-audio
(terminate) message `[0x00,0x00,0x00]`. -/
theorem empty_audio_equals_non_audio_result :
    audiosocket_receive_frame [0x10, 0x00, 0x00] =
      audiosocket_receive_frame [0x00, 0x00, 0x00] ∧
    audiosocket_forward_frame [0x10, 0x00, 0x00] =
      audiosocket_forward_frame [0x00, 0x00, 0x00] := by
  decide

/-- C6 (amended): a zero-length audio message yields the null-frame result
(the same ignored result a non-audio message yields) and is not forwarded
to the channel; on the stream of the two concatenated audio messages
`[0x10,0x00,0x02,0xAA,0xBB]` and `[0x10,0x00,0x00]` the decode path
delivers exactly one 2-byte frame to the channel and treats the empty
message as a no-op with the non-error return 0. -/
theorem empty_audio_noop :
    audiosocket_forward_frame
        [0x10, 0x00, 0x02, 0xAA, 0xBB, 0x10, 0x00, 0x00] =
      (0, some [0xAA, 0xBB], [0x10, 0x00, 0x00]) ∧
    audiosocket_forward_frame [0x10, 0x00, 0x00] = (0, none, []) ∧
    audiosocket_receive_frame [0x10, 0x00, 0x00] =
      (RecvResult.nullFrame, []) := by
  decide

/-- C7 (counterexample): on a short write (the single `write` call returns
10 of the 19 bytes), `audiosocket_init` fails immediately having made
exactly one write call — it does not retry the remaining bytes in a loop. -/
theorem init_short_write_no_retry :
    (audiosocket_init (List.replicate 16 0) 10).ret = -1 ∧
    (audiosocket_init (List.replicate 16 0) 10).calls.length = 1 := by
  decide

/-- C7 (amended): `audiosocket_init` performs exactly one `write` call, with
no retry loop, and succeeds exactly when that single call returns the full
encoded byte count 19. -/
theorem init_single_write_exact (uu : List Nat) (a : Int) :
    (audiosocket_init uu a).calls.length = 1 ∧
    ((audiosocket_init uu a).ret = 0 ↔ a = 19) := by
  refine ⟨rfl, ?_⟩
  simp only [audiosocket_init]
  split
  · simp_all
  · simp_all

/-- C10: `audiosocket_send_frame` always emits the header bytes
`(datalen >> 8) % 256` and `datalen % 256` — a length field equal to
`datalen % 65536` — followed by all `datalen` payload bytes; hence for
`datalen > 65535` the emitted length field differs from the number of
payload bytes written. -/
theorem send_frame_length_field_wraps (p : List Nat) (a : Int) :
    (audiosocket_send_frame p a).calls =
      [0x10 :: (p.length >>> 8) % 256 :: p.length % 256 :: p] ∧
    (p.length >>> 8) % 256 * 256 + p.length % 256 = p.length % 65536 ∧
    (p.length > 65535 → p.length % 65536 ≠ p.length) := by
  refine ⟨rfl, ?_, ?_⟩
  · rw [Nat.shiftRight_eq_div_pow]
    omega
  · intro h
    omega

/-- C4: the decode path of `audiosocket_forward_frame` classifies truncated
input into three mutually distinct return codes: a stream ending after the
kind byte but before both length bytes returns `2` (truncated header), a
stream ending after the length bytes but before `len` payload bytes returns
`-1` (truncated payload), and a stream with zero bytes at a message
boundary returns `0`, the non-error code that keeps the caller's loop
running (a clean disconnect is not an error). -/
theorem truncated_stream_classification
    (k h l : Nat) (part : List Nat)
    (hk : k < 256) (hh : h < 256) (hl : l < 256)
    (hpos : 1 ≤ h * 256 + l) (hshort : part.length < h * 256 + l) :
    (audiosocket_forward_frame []).1 = 0 ∧
    (audiosocket_forward_frame [k]).1 = 2 ∧
    (audiosocket_forward_frame [k, h]).1 = 2 ∧
    (audiosocket_forward_frame (k :: h :: l :: part)).1 = -1 ∧
    (audiosocket_forward_frame [k]).1 ≠ (audiosocket_forward_frame []).1 ∧
    (audiosocket_forward_frame (k :: h :: l :: part)).1 ≠
      (audiosocket_forward_frame []).1 ∧
    (audiosocket_forward_frame (k :: h :: l :: part)).1 ≠
      (audiosocket_forward_frame [k]).1 := by
  have h4 : (audiosocket_forward_frame (k :: h :: l :: part)).1 = -1 := by
    simp only [audiosocket_forward_frame]
    rw [if_neg (by omega), if_pos hshort]
  have h0 : (audiosocket_forward_frame []).1 = 0 := rfl
  have h1 : (audiosocket_forward_frame [k]).1 = 2 := rfl
  have h2 : (audiosocket_forward_frame [k, h]).1 = 2 := rfl
  refine ⟨h0, h1, h2, h4, ?_, ?_, ?_⟩
  · rw [h0, h1]
    decide
  · rw [h0, h4]
    decide
  · rw [h1, h4]
    decide

/-- Witness for C4's theorem at the concrete stream
`[0x10, 0x00, 0x05, 0x01, 0x02]` (declared length 5, only 2 payload
bytes). -/
theorem truncated_stream_classification_witness :
    (audiosocket_forward_frame (0x10 :: 0x00 :: 0x05 :: [0x01, 0x02])).1 =
      -1 :=
  (truncated_stream_classification 0x10 0x00 0x05 [0x01, 0x02] (by decide)
    (by decide) (by decide) (by decide) (by decide)).2.2.2.1

/-- C5: a message with a non-audio kind byte and declared length
`hi*256+lo` is fully consumed — the decoder returns the ignored null-frame
result with the stream cursor exactly at the next message boundary — and
one iteration of the relay loop on such a message simply continues on the
rest of the stream (it does not exit). -/
theorem unknown_kind_consumed_nonfatal
    (kind hi lo : Nat) (payload rest : List Nat)
    (inp : Nat → LoopInput) (fuel : Nat)
    (hk : kind ≠ 0x10) (hkb : kind < 256) (hhb : hi < 256) (hlb : lo < 256)
    (hlen : payload.length = hi * 256 + lo) (hpos : 1 ≤ hi * 256 + lo)
    (hc : (inp 0).chanEvent = none) (hs : (inp 0).sockReady = true) :
    audiosocket_receive_frame (kind :: hi :: lo :: (payload ++ rest)) =
      (.nullFrame, rest) ∧
    audiosocket_run_steps (fuel + 1) inp
        (kind :: hi :: lo :: (payload ++ rest)) =
      audiosocket_run_steps fuel (fun n => inp (n + 1)) rest := by
  have hrecv : audiosocket_receive_frame
      (kind :: hi :: lo :: (payload ++ rest)) = (.nullFrame, rest) := by
    simp only [audiosocket_receive_frame]
    rw [if_neg (by omega),
      if_neg (by rw [List.length_append, hlen]; omega),
      if_pos hk, ← hlen, List.drop_left]
  refine ⟨hrecv, ?_⟩
  rw [audiosocket_run_steps]
  simp only [hc, hs, hrecv]
  exact if_pos trivial

/-- Witness for C5's theorem: unknown kind `0x7e`, declared length 4, four
payload bytes, followed by a further message. -/
theorem unknown_kind_consumed_nonfatal_witness :
    audiosocket_receive_frame
        (0x7e :: 0x00 :: 0x04 :: ([1, 2, 3, 4] ++ [0x10, 0x00, 0x00])) =
      (.nullFrame, [0x10, 0x00, 0x00]) :=
  (unknown_kind_consumed_nonfatal 0x7e 0x00 0x04 [1, 2, 3, 4]
    [0x10, 0x00, 0x00] (fun _ => ⟨none, true⟩) 0 (by decide) (by decide)
    (by decide) (by decide) (by decide) (by decide) rfl rfl).1

/-- C8: in the connect loop, a candidate whose connect is in progress and
whose socket polls writable is treated as connected exactly when the
fetched SO_ERROR state reports success; when the SO_ERROR state reports a
connection error the loop advances to the next resolved candidate; and the
whole call fails only once every candidate has been tried and advanced
past. -/
theorem connect_candidate_so_error
    (c : Candidate) (rest cands : List Candidate) (idx : Nat)
    (hp : c.hasPort = true) (hso : c.socketOk = true) (hf : c.flagsOk = true)
    (he : c.einprogress = true) (hw : c.pollWritable = true) :
    (audiosocket_connect_from (c :: rest) idx = .connected idx ↔
      c.soErrorFetchOk = true ∧ c.soError = 0) ∧
    (c.soErrorFetchOk = true → c.soError ≠ 0 →
      audiosocket_connect_from (c :: rest) idx =
        audiosocket_connect_from rest (idx + 1)) ∧
    (audiosocket_connect_from cands idx = .failed →
      ∀ d ∈ cands, d.hasPort = false ∨ d.socketOk = false ∨
        d.flagsOk = false ∨
        (d.einprogress = true ∧ handle_audiosocket_connection d = false)) := by
  have hstep : audiosocket_connect_from (c :: rest) idx =
      if handle_audiosocket_connection c then .connected idx
      else audiosocket_connect_from rest (idx + 1) := by
    rw [audiosocket_connect_from]
    simp [hp, hso, hf, he]
  have hhandle : handle_audiosocket_connection c = true ↔
      c.soErrorFetchOk = true ∧ c.soError = 0 := by
    simp [handle_audiosocket_connection, hw]
  refine ⟨?_, ?_, fun hfail => connect_from_failed_all_continue cands idx hfail⟩
  · rw [hstep]
    by_cases hca : handle_audiosocket_connection c = true
    · rw [if_pos hca]
      simp [hhandle.mp hca]
    · rw [if_neg (by simpa using hca)]
      constructor
      · intro hcon
        have := connect_from_connected_le rest (idx + 1) idx hcon
        omega
      · intro hres
        exact absurd (hhandle.mpr hres) hca
  · intro hfetch hso2
    rw [hstep, if_neg ?hnc]
    case hnc =>
      simp [handle_audiosocket_connection, hso2]

/-- Witness for C8's theorem: one candidate with port, working socket,
EINPROGRESS connect, writable poll and SO_ERROR 0 connects at index 0. -/
theorem connect_candidate_so_error_witness :
    audiosocket_connect_from
        [({ hasPort := true, socketOk := true, flagsOk := true,
            einprogress := true, pollWritable := true,
            soErrorFetchOk := true, soError := 0 } : Candidate)] 0 =
      .connected 0 :=
  ((connect_candidate_so_error
      { hasPort := true, socketOk := true, flagsOk := true,
        einprogress := true, pollWritable := true,
        soErrorFetchOk := true, soError := 0 }
      [] [] 0 rfl rfl rfl rfl rfl).1).mpr ⟨rfl, rfl⟩

/-- C9 (code evaluated at the failing input): with the socket stream closed
(EOF at a message boundary) and the channel producing no frames, the relay
loop of `audiosocket_run` never exits — for every iteration bound it is
still running, because `audiosocket_receive_frame` maps EOF to the null
frame, which the loop forwards and then continues.  No terminal
"transport closed" result exists in the code. -/
theorem run_loop_spins_on_closed_socket (fuel : Nat) (inp : Nat → LoopInput)
    (hc : ∀ n, (inp n).chanEvent = none)
    (hs : ∀ n, (inp n).sockReady = true) :
    audiosocket_run_steps fuel inp [] = (.running [], []) := by
  induction fuel generalizing inp with
  | zero => rfl
  | succ f ih =>
    rw [audiosocket_run_steps]
    simp only [hc 0, hs 0,
      (rfl : audiosocket_receive_frame [] = (.nullFrame, []))]
    exact ih (fun n => inp (n + 1)) (fun n => hc (n + 1))
      (fun n => hs (n + 1))

/-- Witness for C9's theorem at fuel 3 and the constant
channel-idle/socket-ready schedule. -/
theorem run_loop_spins_on_closed_socket_witness :
    audiosocket_run_steps 3 (fun _ => ⟨none, true⟩) [] =
      (.running [], []) :=
  run_loop_spins_on_closed_socket 3 (fun _ => ⟨none, true⟩) (fun _ => rfl)
    (fun _ => rfl)

/-- Witness for C10's theorem at the concrete 65536-byte payload. -/
theorem send_frame_length_field_wraps_witness :
    (List.replicate 65536 (0 : Nat)).length % 65536 ≠
      (List.replicate 65536 (0 : Nat)).length :=
  (send_frame_length_field_wraps (List.replicate 65536 0) 0).2.2
    (by norm_num [List.length_replicate])

end AudioSocket
